import Mathlib

/-!
Shallow embedding of the PaddleScience excerpt (the cylinder3d unsteady
optimize driver `examples/cylinder/3d_unsteady_discrete/optimize/
cylinder3d_unsteady_optimize.py` and the visualization adapters
`ppsci/visualize/visualizer.py`), together with proofs settling the
specification claims about them.

Numpy 2-D arrays are modelled as lists of rows of rationals; general
n-dimensional arrays as a shape vector plus a flat data list.  External
effects (optimizer steps, file writes, dataset download) are modelled as
event traces, and the external plot/mesh writers as records of the
arguments they are invoked with.
-/

namespace PaddleScience

/-- A 2-D numpy array: a list of rows of rationals. -/
abbrev Mat := List (List ℚ)

/-- Numpy column slice `m[:, 0:3]`. -/
def colSlice03 (m : Mat) : Mat := m.map fun r => r.take 3

/-- Numpy column slice `m[:, 3:7]`. -/
def colSlice37 (m : Mat) : Mat := m.map fun r => (r.drop 3).take 4

/-- Column-wise concatenation of two matrices with the same row count
(numpy `concatenate` along axis 1). -/
def hconcat (a b : Mat) : Mat := List.zipWith (· ++ ·) a b

/-- The pure data content of `GetRealPhyInfo` from
`cylinder3d_unsteady_optimize.py` (lines 73-88): `realAll t` stands for the
array loaded from `openfoam_cylinder_re100/flow_re100_<t>_xyzuvwp.npy`, and
`need_info` selects the column slice exactly as the source does:
`real_data[:, 0:3]` for `"cord"`, `real_data[:, 3:7]` for `"physic"`, and
the full record otherwise. -/
def GetRealPhyInfo (realAll : Int → Mat) (t : Int) (need_info : Option String) : Mat :=
  let real_data := realAll t
  if need_info = some "cord" then colSlice03 real_data
  else if need_info = some "physic" then colSlice37 real_data
  else real_data

theorem take3_append_drop3_take4 (r : List ℚ) (h : r.length = 7) :
    r.take 3 ++ (r.drop 3).take 4 = r := by
  have h4 : (r.drop 3).length ≤ 4 := by simp [List.length_drop, h]
  rw [List.take_of_length_le h4, List.take_append_drop]

theorem hconcat_colSlices (l : Mat) (h7 : ∀ r ∈ l, r.length = 7) :
    hconcat (colSlice03 l) (colSlice37 l) = l := by
  induction l with
  | nil => rfl
  | cons r rs ih =>
    have hr : r.length = 7 := h7 r (List.mem_cons_self r rs)
    have hrest : ∀ x ∈ rs, x.length = 7 := fun x hx => h7 x (List.mem_cons_of_mem r hx)
    simp only [hconcat, colSlice03, colSlice37, List.map_cons, List.zipWith_cons_cons]
    exact congrArg₂ (· :: ·) (take3_append_drop3_take4 r hr) (ih hrest)

/-- C3: for every time `t` at which real data exists,
`GetRealPhyInfo(t, "cord")` column-wise concatenated with
`GetRealPhyInfo(t, "physic")` equals `GetRealPhyInfo(t, None)`: the
`"cord"` call returns columns `0:3`, the `"physic"` call returns columns
`3:7`, and the `None` call returns the full 7-column record, so the two
slices reassemble the whole array. -/
theorem getRealPhyInfo_cord_physic_eq_full (realAll : Int → Mat) (t : Int)
    (h7 : ∀ r ∈ realAll t, r.length = 7) :
    hconcat (GetRealPhyInfo realAll t (some "cord"))
        (GetRealPhyInfo realAll t (some "physic"))
      = GetRealPhyInfo realAll t none := by
  simp only [GetRealPhyInfo]
  norm_num
  exact hconcat_colSlices (realAll t) h7

/-- Concrete two-row real-data table used to witness C3. -/
def realAllW : Int → Mat := fun _ =>
  [[0, 1, 2, 3, 4, 5, 6], [7, 8, 9, 10, 11, 12, 13]]

/-- Witness for C3 at a concrete 7-column table. -/
theorem getRealPhyInfo_cord_physic_eq_full_witness :
    hconcat (GetRealPhyInfo realAllW 100 (some "cord"))
        (GetRealPhyInfo realAllW 100 (some "physic"))
      = GetRealPhyInfo realAllW 100 none :=
  getRealPhyInfo_cord_physic_eq_full realAllW 100 (by decide)

/-! The effect side of `GetRealPhyInfo` (lines 74-81 of the driver): before
loading the `.npy` file for the requested time, the source checks whether
the directory `./openfoam_cylinder_re100` exists, and if it does not, it
downloads a fixed zip archive and extracts it.  We model the filesystem
state it consults and the sequence of I/O events it performs. -/

/-- Filesystem state consulted by `GetRealPhyInfo`: whether the dataset
directory `./openfoam_cylinder_re100` exists, and which files exist. -/
structure FsState where
  dirExists : Bool
  files : List String
deriving DecidableEq

/-- An I/O event performed by `GetRealPhyInfo`. -/
inductive IOEvent where
  | download (url : String)
  | extractAll (dir : String)
  | loadNpy (path : String)
deriving DecidableEq

/-- The fixed dataset archive URL from line 76 of the driver. -/
def dataSetUrl : String :=
  "https://dataset.bj.bcebos.com/PaddleScience/cylinder3D/openfoam_cylinder_re100/cylinder3d_openfoam_re100.zip"

/-- The `.npy` path loaded by `GetRealPhyInfo` for time `t` (lines 80-81). -/
def realDataPath (t : Int) : String :=
  "openfoam_cylinder_re100/flow_re100_" ++ toString t ++ "_xyzuvwp.npy"

/-- The sequence of I/O events performed by one call `GetRealPhyInfo(t, ·)`:
the download-and-extract pair exactly when the dataset directory is absent
(the source tests `os.path.exists('./openfoam_cylinder_re100')`, line 75),
followed unconditionally by the load of the requested time's file. -/
def getRealPhyInfoEvents (fs : FsState) (t : Int) : List IOEvent :=
  (if fs.dirExists then [] else
    [IOEvent.download dataSetUrl, IOEvent.extractAll "openfoam_cylinder_re100"]) ++
  [IOEvent.loadNpy (realDataPath t)]

/-- Boolean discriminator for download events. -/
def IOEvent.isDownload : IOEvent → Bool
  | .download _ => true
  | _ => false

/-- Filesystem state with the dataset directory present but no `.npy` files
at all: the input on which claim C8 fails. -/
def fsDirOnly : FsState := { dirExists := true, files := [] }

/-- C8 counterexample: with the dataset directory present but the requested
time's file (`flow_re100_100_xyzuvwp.npy`) absent, `GetRealPhyInfo` performs
no download-and-extract fallback at all — it attempts the load directly —
contradicting the claim that the fallback is triggered whenever the
requested time's file is absent. -/
theorem getRealPhyInfo_no_fallback_on_missing_file :
    fsDirOnly.files.contains (realDataPath 100) = false
  ∧ (getRealPhyInfoEvents fsDirOnly 100).countP IOEvent.isDownload = 0
  ∧ getRealPhyInfoEvents fsDirOnly 100 = [IOEvent.loadNpy (realDataPath 100)] :=
  ⟨rfl, rfl, rfl⟩

/-- C8 amended: the download-and-extract fallback is triggered exactly when
the dataset directory `./openfoam_cylinder_re100` is absent — regardless of
whether the requested time's file exists — and the load of
`flow_re100_<int(t)>_xyzuvwp.npy` is attempted unconditionally afterwards,
as the final event. -/
theorem getRealPhyInfo_fallback_iff_dir_absent (fs : FsState) (t : Int) :
    (IOEvent.download dataSetUrl ∈ getRealPhyInfoEvents fs t ↔ fs.dirExists = false)
  ∧ (getRealPhyInfoEvents fs t).getLast? = some (IOEvent.loadNpy (realDataPath t))
  ∧ (fs.dirExists = true →
      getRealPhyInfoEvents fs t = [IOEvent.loadNpy (realDataPath t)])
  ∧ (fs.dirExists = false →
      getRealPhyInfoEvents fs t
        = [IOEvent.download dataSetUrl, IOEvent.extractAll "openfoam_cylinder_re100",
           IOEvent.loadNpy (realDataPath t)]) := by
  unfold getRealPhyInfoEvents
  rcases fs with ⟨d, files⟩
  cases d <;> simp

/-- Witness for the amended C8 at both concrete filesystem states. -/
theorem getRealPhyInfo_fallback_iff_dir_absent_witness :
    getRealPhyInfoEvents { dirExists := true, files := [] } 100
        = [IOEvent.loadNpy (realDataPath 100)]
  ∧ getRealPhyInfoEvents { dirExists := false, files := [] } 100
        = [IOEvent.download dataSetUrl, IOEvent.extractAll "openfoam_cylinder_re100",
           IOEvent.loadNpy (realDataPath 100)] :=
  ⟨(getRealPhyInfo_fallback_iff_dir_absent { dirExists := true, files := [] } 100).2.2.1 rfl,
   (getRealPhyInfo_fallback_iff_dir_absent { dirExists := false, files := [] } 100).2.2.2 rfl⟩

/-! Loss assembly (driver lines 169-188).  The boundary-condition loss and
the two equation losses are produced by `compute_bc_loss` / `compute_eq_loss`
from `paddlescience.solver.utils` (external to the excerpt), so they enter
the total loss as opaque real parameters; the data loss and the total loss
are translated from the source expressions. -/

/-- Modelled from the spec: `l2_norm_square` from `paddlescience.solver.utils`
is not under src/; per the spec's loss description ("squared error between
network output at reference points and all four physical fields") it is the
sum of the squared entries of its argument vector. -/
def l2_norm_square (v : List ℚ) : ℚ := (v.map fun x => x * x).sum

/-- Column `j` of a matrix, `m[:, j]` (missing entries read as `0`). -/
def col (j : Nat) (m : Mat) : List ℚ := m.map fun r => r.getD j 0

/-- The `data_loss` expression of driver lines 179-182: the sum of
`l2_norm_square(outputs_var[4][:, c] - labels_var[3 + c])` for the four
physical-field columns `c = 0, 1, 2, 3`. -/
def data_loss (out4 : Mat) (labels_var : List (List ℚ)) : ℚ :=
  l2_norm_square (List.zipWith (· - ·) (col 0 out4) (labels_var.getD 3 [])) +
  l2_norm_square (List.zipWith (· - ·) (col 1 out4) (labels_var.getD 4 [])) +
  l2_norm_square (List.zipWith (· - ·) (col 2 out4) (labels_var.getD 5 [])) +
  l2_norm_square (List.zipWith (· - ·) (col 3 out4) (labels_var.getD 6 []))

/-- The `total_loss` expression of driver lines 185-186:
`paddle.sqrt(bc_loss + output_var_0_eq_loss + output_var_4_eq_loss + 100.0 * data_loss)`,
with the square root taken over the reals. -/
noncomputable def total_loss (bc_loss output_var_0_eq_loss output_var_4_eq_loss : ℝ)
    (out4 : Mat) (labels_var : List (List ℚ)) : ℝ :=
  Real.sqrt (bc_loss + output_var_0_eq_loss + output_var_4_eq_loss +
    100.0 * (data_loss out4 labels_var : ℝ))

/-- The data loss as the claim words it: the sum, over the four physical-field
columns and the reference points, of the squared error between the
reference-point network output's column `c` and the label array `3 + c`. -/
def data_loss_claim (out4 : Mat) (labels_var : List (List ℚ)) : ℚ :=
  ∑ c : Fin 4, ∑ i ∈ Finset.range out4.length,
    ((out4.getD i []).getD (c : ℕ) 0 - (labels_var.getD (3 + (c : ℕ)) []).getD i 0) ^ 2

theorem l2_norm_square_eq_sum (v : List ℚ) :
    l2_norm_square v = ∑ i ∈ Finset.range v.length, (v.getD i 0) ^ 2 := by
  induction v with
  | nil => simp [l2_norm_square]
  | cons x xs ih =>
    simp only [l2_norm_square, List.map_cons, List.sum_cons, List.length_cons,
      Finset.sum_range_succ']
    rw [show ((x :: xs).getD 0 0) = x from rfl]
    have hsh : ∀ i, ((x :: xs).getD (i + 1) 0) = xs.getD i 0 := fun i => rfl
    simp only [hsh]
    rw [← l2_norm_square, ih]
    ring

theorem l2_norm_square_zipWith_sub (xs ys : List ℚ) (hlen : ys.length = xs.length) :
    l2_norm_square (List.zipWith (· - ·) xs ys)
      = ∑ i ∈ Finset.range xs.length, (xs.getD i 0 - ys.getD i 0) ^ 2 := by
  rw [l2_norm_square_eq_sum]
  have hz : (List.zipWith (fun a b => a - b) xs ys).length = xs.length := by
    simp [List.length_zipWith, hlen]
  rw [hz]
  refine Finset.sum_congr rfl fun i hi => ?_
  have hix : i < xs.length := Finset.mem_range.mp hi
  have hiy : i < ys.length := hlen ▸ hix
  have hiz : i < (List.zipWith (fun a b => a - b) xs ys).length := by
    simp [List.length_zipWith, hlen, hix]
  rw [List.getD_eq_getElem _ _ hiz, List.getD_eq_getElem _ _ hix,
    List.getD_eq_getElem _ _ hiy, List.getElem_zipWith]

theorem col_getD (j : Nat) (m : Mat) (i : Nat) (hi : i < m.length) :
    (col j m).getD i 0 = (m.getD i []).getD j 0 := by
  have hic : i < (col j m).length := by simpa [col] using hi
  rw [List.getD_eq_getElem _ _ hic, List.getD_eq_getElem _ _ hi]
  simp [col]

theorem col_term_sum (c : Nat) (out4 : Mat) (lab : List ℚ)
    (hlen : lab.length = out4.length) :
    l2_norm_square (List.zipWith (· - ·) (col c out4) lab)
      = ∑ i ∈ Finset.range out4.length,
          ((out4.getD i []).getD c 0 - lab.getD i 0) ^ 2 := by
  have hc : (col c out4).length = out4.length := by simp [col]
  rw [l2_norm_square_zipWith_sub _ _ (by rw [hlen, hc]), hc]
  exact Finset.sum_congr rfl fun i hi =>
    congrArg (· ^ 2)
      (congrArg (· - lab.getD i 0) (col_getD c out4 i (Finset.mem_range.mp hi)))

/-- C1: the total training objective computed by the driver equals
`sqrt(bc_loss + eq_loss_interior + eq_loss_reference + 100 * data_loss)`,
where the data loss is the sum of squared errors between the reference-point
network output's four columns and the four physical-field label arrays
(`labels_var[3] .. labels_var[6]`); the square root and the fixed weight 100
are applied exactly as written. -/
theorem total_loss_eq_claim (bc_loss eq_loss_interior eq_loss_reference : ℝ)
    (out4 : Mat) (labels_var : List (List ℚ))
    (h3 : (labels_var.getD 3 []).length = out4.length)
    (h4 : (labels_var.getD 4 []).length = out4.length)
    (h5 : (labels_var.getD 5 []).length = out4.length)
    (h6 : (labels_var.getD 6 []).length = out4.length) :
    total_loss bc_loss eq_loss_interior eq_loss_reference out4 labels_var
      = Real.sqrt (bc_loss + eq_loss_interior + eq_loss_reference +
          100 * (data_loss_claim out4 labels_var : ℝ)) := by
  have hdl : data_loss out4 labels_var = data_loss_claim out4 labels_var := by
    rw [data_loss_claim, Fin.sum_univ_four, data_loss,
      col_term_sum 0 out4 _ h3, col_term_sum 1 out4 _ h4,
      col_term_sum 2 out4 _ h5, col_term_sum 3 out4 _ h6]
    have hv0 : ((0 : Fin 4) : ℕ) = 0 := rfl
    have hv1 : ((1 : Fin 4) : ℕ) = 1 := rfl
    have hv2 : ((2 : Fin 4) : ℕ) = 2 := rfl
    have hv3 : ((3 : Fin 4) : ℕ) = 3 := rfl
    simp only [hv0, hv1, hv2, hv3]
  rw [total_loss, hdl]
  norm_num

/-- Concrete reference-point output (two points, four fields) for the C1
witness. -/
def out4W : Mat := [[1, 2, 3, 4], [5, 6, 7, 8]]

/-- Concrete label list (slots 3..6 are the four physical-field arrays) for
the C1 witness. -/
def labelsW : List (List ℚ) :=
  [[], [], [], [1, 1], [2, 2], [3, 3], [4, 4]]

/-- Witness for C1 at concrete reference-point outputs and labels. -/
theorem total_loss_eq_claim_witness :
    total_loss 1 2 3 out4W labelsW
      = Real.sqrt (1 + 2 + 3 + 100 * (data_loss_claim out4W labelsW : ℝ)) :=
  total_loss_eq_claim 1 2 3 out4W labelsW (by decide) (by decide) (by decide) (by decide)

/-! Time-marching driver (driver lines 218-270).  One worker's loop is
modelled: the executor's fetched output tensors (the `out[1:]` of the final
`exe.run` of each timestep's epoch loop) are an external function of the
timestep index and the fed labels, and the per-timestep optimizer steps and
artifact writes are recorded as events. -/

/-- Modelled from the spec: the label slots written by
`algo.feed_data_interior_cur`, `algo.feed_data_user_cur` and
`algo.feed_data_user_next` (paddlescience, not under src/).  Per the spec's
driver algorithm, building fresh labels overwrites the interior subset with
`current_interior`, the user subset's current slot with `current_user`, and
the user subset's next slot with freshly fetched real data at the new time. -/
structure Labels where
  interior_cur : Mat
  user_cur : Mat
  user_next : Mat
deriving DecidableEq

/-- The state carried between timestep iterations (driver lines 223-225 and
266-270). -/
structure CarryState where
  current_interior : Mat
  current_user : Mat
deriving DecidableEq

/-- The driver's fixed collaborators and configuration: `realAll` backs
`GetRealPhyInfo`, `netOut i l` stands for the final optimizer step's fetched
output tensors (`out[1:]`, i.e. the evaluated `outputs_var`) at timestep
iteration `i` under fed labels `l`, and the remaining fields are the
source's configuration constants. -/
structure DriverCfg where
  netOut : Nat → Labels → List Mat
  realAll : Int → Mat
  start_time : Int
  time_step : Int
  train_epoch : Nat
  vtk_filename : String
  solution_filename : String

/-- `GetRealPhyInfo(t, 'physic')` as used by the driver loop. -/
def DriverCfg.realPhysic (cfg : DriverCfg) (t : Int) : Mat :=
  GetRealPhyInfo cfg.realAll t (some "physic")

/-- The wall-clock time of timestep iteration `i` (driver line 229):
`next_time = start_time + (i + 1) * time_step`. -/
def DriverCfg.next_time (cfg : DriverCfg) (i : Nat) : Int :=
  cfg.start_time + (i + 1) * cfg.time_step

/-- The labels fed at timestep iteration `i` from carry state `s` (driver
lines 232-240): interior slot from `current_interior`, user-current slot
from `current_user`, user-next slot from
`GetRealPhyInfo(next_time, 'physic')`. -/
def buildLabels (cfg : DriverCfg) (s : CarryState) (i : Nat) : Labels :=
  { interior_cur := s.current_interior
  , user_cur := s.current_user
  , user_next := cfg.realPhysic (cfg.next_time i) }

/-- The `next_uvwp` of timestep iteration `i` executed from carry state `s`:
the final optimizer step's output tensors under the labels fed this
iteration (driver lines 247-255). -/
def nextUvwp (cfg : DriverCfg) (s : CarryState) (i : Nat) : List Mat :=
  cfg.netOut i (buildLabels cfg s i)

/-- One timestep iteration's state transition (driver lines 266-270):
`current_interior = next_uvwp[0][:, 0:3]` and
`current_user = next_uvwp[-1][:, 0:3]`. -/
def driverStep (cfg : DriverCfg) (i : Nat) (s : CarryState) : CarryState :=
  let next_uvwp := nextUvwp cfg s i
  { current_interior := colSlice03 (next_uvwp.headD [])
  , current_user := colSlice03 (next_uvwp.getLastD []) }

/-- The carry state at the start of timestep iteration `i`, from initial
state `s0`. -/
def driverStates (cfg : DriverCfg) (s0 : CarryState) : Nat → CarryState
  | 0 => s0
  | i + 1 => driverStep cfg i (driverStates cfg s0 i)

/-- The initial carry state (driver lines 223-225): a zero array of shape
`(npoints, 3)` for the interior, and the first three columns of the real
physical data at `start_time` for the user points. -/
def initState (cfg : DriverCfg) (npoints : Nat) : CarryState :=
  { current_interior := List.replicate npoints (List.replicate 3 (0 : ℚ))
  , current_user := colSlice03 (cfg.realPhysic cfg.start_time) }

/-- An observable event of the driver loop: one optimizer-step execution
(`exe.run`, line 248) or one artifact-file write (`save_vtk` / `save_npy`,
lines 259-264). -/
inductive DriverEvent where
  | optStep
  | fileWrite (name : String)
deriving DecidableEq

/-- Boolean discriminator for optimizer-step events. -/
def DriverEvent.isOptStep : DriverEvent → Bool
  | .optStep => true
  | _ => false

/-- Boolean discriminator for file-write events. -/
def DriverEvent.isFileWrite : DriverEvent → Bool
  | .fileWrite _ => true
  | .optStep => false

/-- The events of timestep iteration `i`: `train_epoch` optimizer steps
(the inner `for k in range(train_epoch)` loop, lines 247-248), then the vtk
write and the npy write keyed by `next_time` (lines 257-264). -/
def iterEvents (cfg : DriverCfg) (i : Nat) : List DriverEvent :=
  List.replicate cfg.train_epoch DriverEvent.optStep ++
    [ DriverEvent.fileWrite (cfg.vtk_filename ++ toString (cfg.next_time i))
    , DriverEvent.fileWrite (cfg.solution_filename ++ toString (cfg.next_time i)) ]

/-- The events of the first `n` timestep iterations of the driver loop
(`for i in range(num_time_step)`, line 228), in order. -/
def driverTrace (cfg : DriverCfg) : Nat → List DriverEvent
  | 0 => []
  | n + 1 => driverTrace cfg n ++ iterEvents cfg n

/-- C2: at the end of every timestep iteration `i`, the carried state for
the next iteration is obtained by slicing the final optimizer step's
outputs — `current_interior` is columns `0:3` of `next_uvwp[0]` (the
interior-subset output) and `current_user` is columns `0:3` of
`next_uvwp[-1]` (the reference-point-subset output) — and these arrays are
exactly the interior and user-current label slots fed at iteration
`i + 1`. -/
theorem driver_carry_is_sliced_final_output (cfg : DriverCfg) (s0 : CarryState) (i : Nat) :
    (driverStates cfg s0 (i + 1)).current_interior
        = colSlice03 ((nextUvwp cfg (driverStates cfg s0 i) i).headD [])
  ∧ (driverStates cfg s0 (i + 1)).current_user
        = colSlice03 ((nextUvwp cfg (driverStates cfg s0 i) i).getLastD [])
  ∧ (buildLabels cfg (driverStates cfg s0 (i + 1)) (i + 1)).interior_cur
        = colSlice03 ((nextUvwp cfg (driverStates cfg s0 i) i).headD [])
  ∧ (buildLabels cfg (driverStates cfg s0 (i + 1)) (i + 1)).user_cur
        = colSlice03 ((nextUvwp cfg (driverStates cfg s0 i) i).getLastD []) :=
  ⟨rfl, rfl, rfl, rfl⟩

/-- A matrix has shape `(rows, cols)`. -/
def matShape (m : Mat) (rows cols : Nat) : Prop :=
  m.length = rows ∧ ∀ r ∈ m, r.length = cols

theorem colSlice03_shape (m : Mat) (rows : Nat) (hlen : m.length = rows)
    (hrow : ∀ r ∈ m, 3 ≤ r.length) : matShape (colSlice03 m) rows 3 := by
  constructor
  · simpa [colSlice03] using hlen
  · intro r hr
    simp only [colSlice03, List.mem_map] at hr
    obtain ⟨r', hr', rfl⟩ := hr
    simp [List.length_take, Nat.min_eq_left (hrow r' hr')]

/-- C4: for every timestep index `i`, the array fed as the interior-subset
label (`current_interior` at the start of iteration `i`) has exactly as
many rows as the discretized geometry's interior point count and exactly 3
columns: the shape is established by the zero initialization and preserved
by every iteration's update, given that the backend's interior-subset
output tensor always has `npoints` rows and 4 columns (the network has
`num_outs=4`). -/
theorem interior_label_shape_invariant (cfg : DriverCfg) (npoints : Nat)
    (hout : ∀ i l, ((cfg.netOut i l).headD []).length = npoints ∧
        ∀ r ∈ (cfg.netOut i l).headD [], r.length = 4) (i : Nat) :
    matShape (driverStates cfg (initState cfg npoints) i).current_interior npoints 3 := by
  cases i with
  | zero =>
    constructor
    · simp [driverStates, initState]
    · intro r hr
      simp only [driverStates, initState, List.mem_replicate] at hr
      simp [hr.2]
  | succ i =>
    obtain ⟨hlen, hrow⟩ :=
      hout i (buildLabels cfg (driverStates cfg (initState cfg npoints) i) i)
    exact colSlice03_shape _ _ hlen fun r hr => by rw [hrow r hr]; norm_num

/-- Concrete driver configuration for the C4 witness: the backend returns a
fixed pair of output tensors with two interior rows of four fields. -/
def cfgW : DriverCfg :=
  { netOut := fun _ _ => [[[1, 2, 3, 4], [5, 6, 7, 8]], [[9, 10, 11, 12]]]
  , realAll := realAllW
  , start_time := 100
  , time_step := 1
  , train_epoch := 2
  , vtk_filename := "train_cylinder_unsteady_re100/cylinder3d_train_rslt_"
  , solution_filename := "output_cylinder3d_unsteady" }

theorem cfgW_out_shape (i : Nat) (l : Labels) :
    ((cfgW.netOut i l).headD []).length = 2 ∧
      ∀ r ∈ (cfgW.netOut i l).headD [], r.length = 4 := by
  refine ⟨rfl, ?_⟩
  show ∀ r ∈ ([[1, 2, 3, 4], [5, 6, 7, 8]] : Mat), r.length = 4
  decide

/-- Witness for C4 after five timestep iterations of the concrete driver. -/
theorem interior_label_shape_invariant_witness :
    matShape (driverStates cfgW (initState cfgW 2) 5).current_interior 2 3 :=
  interior_label_shape_invariant cfgW 2 cfgW_out_shape 5

theorem countP_replicate {α : Type} (p : α → Bool) (a : α) (n : Nat) :
    (List.replicate n a).countP p = if p a then n else 0 := by
  induction n with
  | zero => simp
  | succ n ih =>
    rw [List.replicate_succ, List.countP_cons]
    rcases h : p a <;> simp [ih, h]

/-- C5: the driver loop executes exactly `num_time_step` timestep
iterations with no early stopping — each running exactly `train_epoch`
optimizer steps, `num_time_step * train_epoch` in total — and writes
exactly two artifact files per iteration; in particular, for
`num_time_step = 0` it performs zero optimizer steps and writes zero
artifact files. -/
theorem driver_trace_counts (cfg : DriverCfg) (num_time_step : Nat) :
    (driverTrace cfg num_time_step).countP DriverEvent.isOptStep
        = num_time_step * cfg.train_epoch
  ∧ (driverTrace cfg num_time_step).countP DriverEvent.isFileWrite
        = 2 * num_time_step
  ∧ (∀ i, (iterEvents cfg i).countP DriverEvent.isOptStep = cfg.train_epoch)
  ∧ driverTrace cfg 0 = [] := by
  refine ⟨?_, ?_, ?_, rfl⟩
  case refine_3 =>
    intro i
    simp [iterEvents, List.countP_append, countP_replicate, List.countP_cons,
      DriverEvent.isOptStep]
  all_goals induction num_time_step with
  | zero => simp [driverTrace]
  | succ n ih =>
    simp only [driverTrace, iterEvents, List.countP_append,
      countP_replicate, List.countP_cons, List.countP_nil, ih]
    simp [DriverEvent.isOptStep, DriverEvent.isFileWrite,
      Nat.mul_succ, Nat.succ_mul]

/-! Visualization adapters (`ppsci/visualize/visualizer.py`).  Numpy arrays
of arbitrary rank are modelled as a shape vector plus a flat data list; the
external plot/mesh writers (`ppsci.visualize.plot` / `ppsci.visualize.vtu`,
external sinks per the spec) are modelled as records of the arguments each
`save` passes to them. -/

/-- An n-dimensional numpy array: its shape and its row-major flat data. -/
structure NDArray where
  shape : List Nat
  flat : List ℚ
deriving DecidableEq

/-- The rank `len(value.shape)` of an array. -/
def NDArray.ndim (v : NDArray) : Nat := v.shape.length

/-- The leading dimension `value.shape[0]` of an array. -/
def NDArray.dim0 (v : NDArray) : Nat := v.shape.headD 0

/-- First-axis indexing `value[i]`: the `i`-th slice of the leading axis. -/
def NDArray.index (v : NDArray) (i : Nat) : NDArray :=
  { shape := v.shape.tail
  , flat := (v.flat.drop (i * v.shape.tail.prod)).take v.shape.tail.prod }

/-- A data dictionary, as the mapping it denotes (Python dict equality). -/
def DataDict : Type := String → Option NDArray

/-- The dict comprehension shared by `VisualizerScatter3D.save` (lines
100-102) and `Visualizer2DPlot.save` (lines 252-254): keep only the entries
whose keys are in `output_keys`. -/
def restrictKeys (d : DataDict) (keys : List String) : DataDict :=
  fun k => if k ∈ keys then d k else none

/-- Modelled from the spec: the construction state shared by all adapters
(`ppsci.visualize.base.Visualizer`, not under src/).  Per the spec, every
variant is constructed with an input dictionary, an output-expression
mapping, a batch size, a timestamp count and a filename prefix;
`output_keys` are the expression mapping's keys in declaration order and
never change, and `input_keys` are the input dictionary's keys. -/
structure Visualizer where
  input_keys : List String
  output_keys : List String
  batch_size : Nat
  num_timestamps : Nat
  prefixStr : String
deriving DecidableEq

/-- One invocation of the external 3-D plot writer
`plot.save_plot_from_3d_dict`, with the arguments passed to it. -/
structure Plot3DCall where
  filename : String
  data : DataDict
  output_keys : List String
  num_timestamps : Nat

/-- One invocation of the external 2-D plot writer
`plot.save_plot_from_2d_dict`, with the arguments passed to it. -/
structure Plot2DCall where
  filename : String
  data : DataDict
  output_keys : List String
  num_timestamps : Nat
  stride : Nat
  xticks : Option (List ℚ)
  yticks : Option (List ℚ)

/-- The outcome of a `save` call: the list of writer invocations it
performs, or a Python exception escaping it. -/
inductive SaveResult (γ : Type) where
  | calls : List γ → SaveResult γ
  | error : String → SaveResult γ

/-- Whether a save outcome is an escaped exception. -/
def SaveResult.isError {γ : Type} : SaveResult γ → Bool
  | .calls _ => false
  | .error _ => true

/-- How many writer invocations a save outcome performed. -/
def SaveResult.numCalls {γ : Type} : SaveResult γ → Nat
  | .calls l => l.length
  | .error _ => 0

/-- The filenames a save outcome wrote, in order. -/
def SaveResult.fileNamesBy {γ : Type} (f : γ → String) : SaveResult γ → List String
  | .calls l => l.map f
  | .error _ => []

/-- The dispatch of `VisualizerScatter3D.save` (lines 103-119) on the
already-restricted data dictionary: select the first output key's value
(`KeyError` if absent, `IndexError` if there is no output key, as in
Python); if its rank is 3, invoke the 3-D plot writer once per leading
index `i` with the filename suffixed by `i` and every entry indexed at
`i`; otherwise invoke it once on the whole dictionary. -/
def scatter3DDispatch (output_keys : List String) (num_timestamps : Nat)
    (filename : String) (data_dict : DataDict) : SaveResult Plot3DCall :=
  match output_keys with
  | [] => .error "IndexError"
  | k0 :: _ =>
    match data_dict k0 with
    | none => .error ("KeyError: " ++ k0)
    | some value =>
      if value.ndim = 3 then
        .calls ((List.range value.dim0).map fun i =>
          { filename := filename ++ toString i
          , data := fun k => (data_dict k).map fun v => v.index i
          , output_keys := output_keys
          , num_timestamps := num_timestamps })
      else
        .calls [{ filename := filename, data := data_dict
                , output_keys := output_keys, num_timestamps := num_timestamps }]

/-- `VisualizerScatter3D.save` (lines 99-119): restrict the data dictionary
to the output keys, then dispatch on the first output value's rank. -/
def visualizerScatter3DSave (vz : Visualizer) (filename : String) (dd : DataDict) :
    SaveResult Plot3DCall :=
  scatter3DDispatch vz.output_keys vz.num_timestamps filename
    (restrictKeys dd vz.output_keys)

/-- The stride/tick configuration added by `Visualizer2DPlot.__init__`
(lines 235-249). -/
structure Visualizer2DPlot where
  toVisualizer : Visualizer
  stride : Nat
  xticks : Option (List ℚ)
  yticks : Option (List ℚ)

/-- The dispatch of `Visualizer2DPlot.save` (lines 255-280) on the
already-restricted data dictionary: as for the 3-D scatter adapter, but
batching on rank 4 and forwarding stride and tick locations to the 2-D
plot writer. -/
def plot2DDispatch (output_keys : List String) (num_timestamps stride : Nat)
    (xticks yticks : Option (List ℚ)) (filename : String) (data_dict : DataDict) :
    SaveResult Plot2DCall :=
  match output_keys with
  | [] => .error "IndexError"
  | k0 :: _ =>
    match data_dict k0 with
    | none => .error ("KeyError: " ++ k0)
    | some value =>
      if value.ndim = 4 then
        .calls ((List.range value.dim0).map fun i =>
          { filename := filename ++ toString i
          , data := fun k => (data_dict k).map fun v => v.index i
          , output_keys := output_keys
          , num_timestamps := num_timestamps
          , stride := stride, xticks := xticks, yticks := yticks })
      else
        .calls [{ filename := filename, data := data_dict
                , output_keys := output_keys, num_timestamps := num_timestamps
                , stride := stride, xticks := xticks, yticks := yticks }]

/-- `Visualizer2DPlot.save` (lines 251-280): restrict the data dictionary
to the output keys, then dispatch on the first output value's rank. -/
def visualizer2DPlotSave (vz : Visualizer2DPlot) (filename : String) (dd : DataDict) :
    SaveResult Plot2DCall :=
  plot2DDispatch vz.toVisualizer.output_keys vz.toVisualizer.num_timestamps
    vz.stride vz.xticks vz.yticks filename
    (restrictKeys dd vz.toVisualizer.output_keys)

theorem scatter3DDispatch_some (k0 : String) (ks : List String) (nt : Nat)
    (filename : String) (D : DataDict) (value : NDArray) (h : D k0 = some value) :
    scatter3DDispatch (k0 :: ks) nt filename D =
      if value.ndim = 3 then
        SaveResult.calls ((List.range value.dim0).map fun i =>
          { filename := filename ++ toString i
          , data := fun k => (D k).map fun v => v.index i
          , output_keys := k0 :: ks
          , num_timestamps := nt })
      else
        SaveResult.calls [{ filename := filename, data := D
                          , output_keys := k0 :: ks, num_timestamps := nt }] := by
  simp only [scatter3DDispatch]
  rw [h]

/-- C6: `VisualizerScatter3D.save`, when the selected output array (the
value under the first output key) has 3 axes, invokes the 3-D plot writer
exactly `B = value.shape[0]` times, one per batch element, with the
filename suffixed by the batch index; when it has 2 axes it invokes the
writer exactly once, on the given filename. -/
theorem scatter3DSave_file_counts (vz : Visualizer) (filename : String) (dd : DataDict)
    (k0 : String) (ks : List String) (value : NDArray)
    (hkeys : vz.output_keys = k0 :: ks) (hval : dd k0 = some value) :
    (value.ndim = 3 →
        (visualizerScatter3DSave vz filename dd).numCalls = value.dim0
      ∧ (visualizerScatter3DSave vz filename dd).fileNamesBy Plot3DCall.filename
          = (List.range value.dim0).map fun i => filename ++ toString i)
  ∧ (value.ndim = 2 →
        (visualizerScatter3DSave vz filename dd).numCalls = 1
      ∧ (visualizerScatter3DSave vz filename dd).fileNamesBy Plot3DCall.filename
          = [filename]) := by
  have hres : restrictKeys dd vz.output_keys k0 = some value := by
    rw [restrictKeys, if_pos (hkeys ▸ List.mem_cons_self k0 ks), hval]
  rw [visualizerScatter3DSave, hkeys]
  rw [hkeys] at hres
  rw [scatter3DDispatch_some k0 ks _ _ _ value hres]
  constructor
  · intro h3
    rw [if_pos h3]
    constructor
    · simp [SaveResult.numCalls]
    · simp [SaveResult.fileNamesBy]
  · intro h2
    rw [if_neg (by rw [h2]; norm_num)]
    exact ⟨rfl, rfl⟩

/-- Concrete scatter visualizer with the single output key `"states"`. -/
def vzW6 : Visualizer :=
  { input_keys := [], output_keys := ["states"], batch_size := 64
  , num_timestamps := 1, prefixStr := "plot3d_scatter" }

/-- A concrete `(2, 5, 3)`-shaped array. -/
def arr253 : NDArray := { shape := [2, 5, 3], flat := List.replicate 30 0 }

/-- A concrete `(5, 3)`-shaped array. -/
def arr53 : NDArray := { shape := [5, 3], flat := List.replicate 15 0 }

/-- Data dictionary holding the `(2, 5, 3)` array under `"states"`. -/
def ddW6a : DataDict := fun k => if k = "states" then some arr253 else none

/-- Data dictionary holding the `(5, 3)` array under `"states"`. -/
def ddW6b : DataDict := fun k => if k = "states" then some arr53 else none

/-- Witness for C6: a `(2, 5, 3)` output yields exactly 2 files (suffixed
`0` and `1`) and a `(5, 3)` output exactly 1. -/
theorem scatter3DSave_file_counts_witness :
    ((visualizerScatter3DSave vzW6 "out" ddW6a).numCalls = 2
      ∧ (visualizerScatter3DSave vzW6 "out" ddW6a).fileNamesBy Plot3DCall.filename
          = ["out0", "out1"])
  ∧ ((visualizerScatter3DSave vzW6 "out" ddW6b).numCalls = 1
      ∧ (visualizerScatter3DSave vzW6 "out" ddW6b).fileNamesBy Plot3DCall.filename
          = ["out"]) :=
  ⟨(scatter3DSave_file_counts vzW6 "out" ddW6a "states" [] arr253 rfl rfl).1 rfl,
   (scatter3DSave_file_counts vzW6 "out" ddW6b "states" [] arr53 rfl rfl).2 rfl⟩

/-- A concrete rank-1 array of four entries. -/
def arrRank1 : NDArray := { shape := [4], flat := [1, 2, 3, 4] }

/-- Data dictionary holding the rank-1 array under `"states"`. -/
def ddRank1 : DataDict := fun k => if k = "states" then some arrRank1 else none

/-- C7 counterexample: a `VisualizerScatter3D.save` call whose selected
output array has rank 1 — matching neither the unbatched 2-D/3-D case nor
the batched case — does not fail with an error: it silently falls into the
unbatched branch and performs one plot-writer invocation. -/
theorem scatter3DSave_rank1_writes_without_error :
    arrRank1.ndim = 1
  ∧ (visualizerScatter3DSave vzW6 "out" ddRank1).isError = false
  ∧ (visualizerScatter3DSave vzW6 "out" ddRank1).numCalls = 1 :=
  ⟨rfl, rfl, rfl⟩

theorem plot2DDispatch_some (k0 : String) (ks : List String) (nt stride : Nat)
    (xticks yticks : Option (List ℚ)) (filename : String) (D : DataDict)
    (value : NDArray) (h : D k0 = some value) :
    plot2DDispatch (k0 :: ks) nt stride xticks yticks filename D =
      if value.ndim = 4 then
        SaveResult.calls ((List.range value.dim0).map fun i =>
          { filename := filename ++ toString i
          , data := fun k => (D k).map fun v => v.index i
          , output_keys := k0 :: ks
          , num_timestamps := nt
          , stride := stride, xticks := xticks, yticks := yticks })
      else
        SaveResult.calls [{ filename := filename, data := D
                          , output_keys := k0 :: ks, num_timestamps := nt
                          , stride := stride, xticks := xticks, yticks := yticks }] := by
  simp only [plot2DDispatch]
  rw [h]

/-- C7 amended: a visualization-adapter save call whose selected output
array's rank does not match the batched case is not rejected with an
error — `VisualizerScatter3D.save` (respectively `Visualizer2DPlot.save`)
dispatches every array whose rank differs from 3 (respectively 4),
including rank 1 or rank 5, to the unbatched branch and silently performs
a single plot-writer invocation. -/
theorem adapters_no_rank_validation :
    (∀ (vz : Visualizer) (filename : String) (dd : DataDict) (k0 : String)
        (ks : List String) (value : NDArray), vz.output_keys = k0 :: ks →
        dd k0 = some value → value.ndim ≠ 3 →
        (visualizerScatter3DSave vz filename dd).isError = false
      ∧ (visualizerScatter3DSave vz filename dd).numCalls = 1)
  ∧ (∀ (vz : Visualizer2DPlot) (filename : String) (dd : DataDict) (k0 : String)
        (ks : List String) (value : NDArray), vz.toVisualizer.output_keys = k0 :: ks →
        dd k0 = some value → value.ndim ≠ 4 →
        (visualizer2DPlotSave vz filename dd).isError = false
      ∧ (visualizer2DPlotSave vz filename dd).numCalls = 1) := by
  constructor
  · intro vz filename dd k0 ks value hkeys hval hdim
    have hres : restrictKeys dd vz.output_keys k0 = some value := by
      rw [restrictKeys, if_pos (hkeys ▸ List.mem_cons_self k0 ks), hval]
    rw [hkeys] at hres
    rw [visualizerScatter3DSave, hkeys, scatter3DDispatch_some k0 ks _ _ _ value hres,
      if_neg hdim]
    exact ⟨rfl, rfl⟩
  · intro vz filename dd k0 ks value hkeys hval hdim
    have hres : restrictKeys dd vz.toVisualizer.output_keys k0 = some value := by
      rw [restrictKeys, if_pos (hkeys ▸ List.mem_cons_self k0 ks), hval]
    rw [hkeys] at hres
    rw [visualizer2DPlotSave, hkeys,
      plot2DDispatch_some k0 ks _ _ _ _ _ _ value hres, if_neg hdim]
    exact ⟨rfl, rfl⟩

/-- Witness for the amended C7 at the concrete rank-1 input. -/
theorem adapters_no_rank_validation_witness :
    (visualizerScatter3DSave vzW6 "out" ddRank1).isError = false
  ∧ (visualizerScatter3DSave vzW6 "out" ddRank1).numCalls = 1 :=
  adapters_no_rank_validation.1 vzW6 "out" ddRank1 "states" [] arrRank1 rfl rfl
    (by decide)

/-- One invocation of the external mesh writer `vtu.save_vtu_from_dict`,
with the arguments passed to it. -/
structure MeshWriteCall where
  filename : String
  data : DataDict
  input_keys : List String
  output_keys : List String
  num_timestamps : Nat

/-- The `VisualizerVtu` class (lines 122-161). -/
structure VisualizerVtu where
  toVisualizer : Visualizer

/-- The `Visualizer3D` class (lines 283-307). -/
structure Visualizer3D where
  toVisualizer : Visualizer

/-- `VisualizerVtu.__init__` (lines 148-156): delegates to the base
constructor with the given prefix. -/
def VisualizerVtu.make (input_dict : List (String × NDArray))
    (output_expr_keys : List String) (batch_size num_timestamps : Nat)
    (p : String) : VisualizerVtu :=
  ⟨{ input_keys := input_dict.map Prod.fst, output_keys := output_expr_keys
   , batch_size := batch_size, num_timestamps := num_timestamps, prefixStr := p }⟩

/-- `VisualizerVtu.__init__` with all defaulted arguments as in the source:
`batch_size=64`, `num_timestamps=1`, and the default prefix `"vtu"`
(line 154). -/
def VisualizerVtu.makeDefault (input_dict : List (String × NDArray))
    (output_expr_keys : List String) : VisualizerVtu :=
  VisualizerVtu.make input_dict output_expr_keys 64 1 "vtu"

/-- `Visualizer3D.__init__` (lines 294-302): delegates to the base
constructor with the given prefix. -/
def Visualizer3D.make (input_dict : List (String × NDArray))
    (output_expr_keys : List String) (batch_size num_timestamps : Nat)
    (p : String) : Visualizer3D :=
  ⟨{ input_keys := input_dict.map Prod.fst, output_keys := output_expr_keys
   , batch_size := batch_size, num_timestamps := num_timestamps, prefixStr := p }⟩

/-- `Visualizer3D.__init__` with all defaulted arguments as in the source:
`batch_size=64`, `num_timestamps=1`, and the default prefix `"plot3d"`
(line 300). -/
def Visualizer3D.makeDefault (input_dict : List (String × NDArray))
    (output_expr_keys : List String) : Visualizer3D :=
  Visualizer3D.make input_dict output_expr_keys 64 1 "plot3d"

/-- `VisualizerVtu.save` (lines 158-161): one mesh-writer invocation with
the filename, the data dictionary, the input keys, the output keys and the
timestamp count. -/
def VisualizerVtu.save (vz : VisualizerVtu) (filename : String) (dd : DataDict) :
    MeshWriteCall :=
  { filename := filename, data := dd
  , input_keys := vz.toVisualizer.input_keys
  , output_keys := vz.toVisualizer.output_keys
  , num_timestamps := vz.toVisualizer.num_timestamps }

/-- `Visualizer3D.save` (lines 304-307): one mesh-writer invocation with
the filename, the data dictionary, the input keys, the output keys and the
timestamp count. -/
def Visualizer3D.save (vz : Visualizer3D) (filename : String) (dd : DataDict) :
    MeshWriteCall :=
  { filename := filename, data := dd
  , input_keys := vz.toVisualizer.input_keys
  , output_keys := vz.toVisualizer.output_keys
  , num_timestamps := vz.toVisualizer.num_timestamps }

/-- C9: for every input dictionary, output-expression key list, batch size,
timestamp count, prefix, filename and data dictionary, `VisualizerVtu.save`
and `Visualizer3D.save` perform the identical mesh-writer call (same
filename, data, input keys, output keys and timestamp count), the two
constructions agree on all state, and the two classes differ only in their
default filename prefix: `"vtu"` versus `"plot3d"`. -/
theorem vtu_and_3d_saves_identical (input_dict : List (String × NDArray))
    (output_expr_keys : List String) (bs nt : Nat) (p filename : String)
    (dd : DataDict) :
    (VisualizerVtu.make input_dict output_expr_keys bs nt p).save filename dd
        = (Visualizer3D.make input_dict output_expr_keys bs nt p).save filename dd
  ∧ (VisualizerVtu.make input_dict output_expr_keys bs nt p).toVisualizer
        = (Visualizer3D.make input_dict output_expr_keys bs nt p).toVisualizer
  ∧ (VisualizerVtu.makeDefault input_dict output_expr_keys).toVisualizer.prefixStr
        = "vtu"
  ∧ (Visualizer3D.makeDefault input_dict output_expr_keys).toVisualizer.prefixStr
        = "plot3d" :=
  ⟨rfl, rfl, rfl, rfl⟩

theorem restrictKeys_congr (keys : List String) (d1 d2 : DataDict)
    (h : ∀ k ∈ keys, d1 k = d2 k) : restrictKeys d1 keys = restrictKeys d2 keys := by
  funext k
  by_cases hk : k ∈ keys
  · simp only [restrictKeys, if_pos hk]
    exact h k hk
  · simp only [restrictKeys, if_neg hk]

/-- C10: for `VisualizerScatter3D.save` and `Visualizer2DPlot.save`, the
produced writer invocations depend only on the entries of the data
dictionary whose keys are output keys: two calls with data dictionaries
that agree on all output-key entries perform identical writes, the entries
outside the output keys being filtered out before any dispatch or
plotting.  (The agreement hypothesis alone suffices, whether or not the
first output key is present.) -/
theorem saves_depend_only_on_output_key_entries (vz : Visualizer)
    (vz2 : Visualizer2DPlot) (filename : String) (d1 d2 : DataDict)
    (h : ∀ k ∈ vz.output_keys, d1 k = d2 k)
    (h2 : ∀ k ∈ vz2.toVisualizer.output_keys, d1 k = d2 k) :
    visualizerScatter3DSave vz filename d1 = visualizerScatter3DSave vz filename d2
  ∧ visualizer2DPlotSave vz2 filename d1 = visualizer2DPlotSave vz2 filename d2 := by
  constructor
  · rw [visualizerScatter3DSave, visualizerScatter3DSave,
      restrictKeys_congr _ d1 d2 h]
  · rw [visualizer2DPlotSave, visualizer2DPlotSave,
      restrictKeys_congr _ d1 d2 h2]

/-- Concrete 2-D plot visualizer with the single output key `"states"`. -/
def vz2W : Visualizer2DPlot :=
  { toVisualizer :=
      { input_keys := [], output_keys := ["states"], batch_size := 64
      , num_timestamps := 1, prefixStr := "plot2d" }
  , stride := 1, xticks := none, yticks := none }

/-- Data dictionary agreeing with `ddW6a` on `"states"` but with an extra
`"junk"` entry. -/
def ddJunk : DataDict := fun k =>
  if k = "states" then some arr253 else if k = "junk" then some arr53 else none

/-- Witness for C10: the extra `"junk"` entry does not change either
adapter's writes. -/
theorem saves_depend_only_on_output_key_entries_witness :
    visualizerScatter3DSave vzW6 "out" ddJunk = visualizerScatter3DSave vzW6 "out" ddW6a
  ∧ visualizer2DPlotSave vz2W "out" ddJunk = visualizer2DPlotSave vz2W "out" ddW6a :=
  saves_depend_only_on_output_key_entries vzW6 vz2W "out" ddJunk ddW6a
    (by intro k hk; simp only [vzW6, List.mem_singleton] at hk; subst hk; rfl)
    (by intro k hk; simp only [vz2W, List.mem_singleton] at hk; subst hk; rfl)

end PaddleScience
